import Mathlib

/-!
# Verification of the tinymodbus library core

Shallow embedding of the tinymodbus Modbus library (`tinymodbus.h` and the
copy of the implementation carried inside `examples/example_posix_tcpip.c`)
into Lean, together with theorems settling the specification claims about
the request validator, the response-size oracle, the ADU finalizer, the
client engine, the server callback table, the CRC-16 checksum and the
transport send/receive loops.

Machine integers are modelled as `Nat` with explicit truncation (`% 256`,
`% 65536`) where the C code relies on the fixed width.  C functions that
report errors through `tmb_error_t` are modelled as functions returning the
numeric error code; the `TMB_ON_FALSE_RETURN` / `TMB_ERROR_CHECK` macros
become `if`/short-circuit patterns.  C unions are modelled as a single
record whose overlapping fields are shared, with per-variant accessor
functions carrying the source's field names.
-/

namespace Tmb

/-! ## Error codes (`enum tmb_error`) -/

def TMB_SUCCESS : Nat := 0
def TMB_E_ILLEGAL_FUNCTION : Nat := 1
def TMB_E_ILLEGAL_DATA_ADDRESS : Nat := 2
def TMB_E_ILLEGAL_DATA_VALUE : Nat := 3
def TMB_E_SLAVE_DEVICE_FAILURE : Nat := 4
def TMB_E_ACKNOWLEDGE : Nat := 5
def TMB_E_SLAVE_DEVICE_BUSY : Nat := 6
def TMB_E_MEMORY_PARITY_ERROR : Nat := 8
def TMB_E_GATEWAY_PATH_UNAVAILABLE : Nat := 10
def TMB_E_GATEWAY_TARGET_DEVICE_FAILED_TO_RESPOND : Nat := 11
def TMB_FAILURE : Nat := 256
def TMB_IGNORED : Nat := 257
def TMB_E_TIMEOUT : Nat := 258
def TMB_E_INVALID_ARGUMENTS : Nat := 259
def TMB_E_INVALID_MODE : Nat := 260
def TMB_E_NOT_IMPLEMENTED : Nat := 261
def TMB_E_NO_MEMORY : Nat := 262
def TMB_E_TRANSPORT : Nat := 263

/-! ## Function codes (`tmb_function_t`) -/

def TMB_FUNCTION_READ_COILS : Nat := 1
def TMB_FUNCTION_READ_DISCRETE_INPUTS : Nat := 2
def TMB_FUNCTION_READ_HOLDING_REGISTERS : Nat := 3
def TMB_FUNCTION_READ_INPUT_REGISTERS : Nat := 4
def TMB_FUNCTION_WRITE_SINGLE_COIL : Nat := 5
def TMB_FUNCTION_WRITE_SINGLE_REGISTER : Nat := 6
def TMB_FUNCTION_WRITE_MULTIPLE_COILS : Nat := 15
def TMB_FUNCTION_WRITE_MULTIPLE_REGISTERS : Nat := 16

/-! ## Range constants -/

def TMB_SERVER_MAX_ADDRESSES : Nat := 10
def TMB_ADDRESS_ANY : Nat := 256
def TMB_READ_COIL_MIN_QUANTITY : Nat := 1
def TMB_READ_COIL_MAX_QUANTITY : Nat := 2000
def TMB_READ_DISCRETE_INPUT_MIN_QUANTITY : Nat := 1
def TMB_READ_DISCRETE_INPUT_MAX_QUANTITY : Nat := 2000
def TMB_READ_HOLDING_REGISTER_MIN_QUANTITY : Nat := 1
def TMB_READ_HOLDING_REGISTER_MAX_QUANTITY : Nat := 125
def TMB_READ_INPUT_REGISTER_MIN_QUANTITY : Nat := 1
def TMB_READ_INPUT_REGISTER_MAX_QUANTITY : Nat := 125
def TMB_WRITE_SINGLE_COIL_TRUE_VALUE : Nat := 0xFF00
def TMB_WRITE_SINGLE_COIL_FALSE_VALUE : Nat := 0x0000
def TMB_WRITE_MULTIPLE_COILS_MIN_QUANTITY : Nat := 1
def TMB_WRITE_MULTIPLE_COILS_MAX_QUANTITY : Nat := 1968
def TMB_WRITE_MULTIPLE_REGISTERS_MIN_QUANTITY : Nat := 1
def TMB_WRITE_MULTIPLE_REGISTERS_MAX_QUANTITY : Nat := 123

/-- `TMB_IS_FUNCTION_EXCEPTION_CODE(code)` is `(code > 0x80)` in the source:
a STRICT comparison, so `0x80` itself is not classified as an exception. -/
def TMB_IS_FUNCTION_EXCEPTION_CODE (code : Nat) : Bool := 0x80 < code

def TMB_RESPONSE_LOOKAHEAD_BYTES : Nat := 2
def TMB_ADU_TCPIP_SIZE_OFFSET : Nat := 4

/-! ## Request PDU (`tmb_request_pdu_t`)

The C type is a tagged struct whose payload is a union.  Every variant of
the union starts with two `uint16_t` fields, and the two write-multiple
variants add a `uint8_t byte_count` and a pointer to the payload.  Because
the variants overlap in memory, reading `read_holding_registers.quantity`
while the request was filled as `read_input_registers` yields the same
storage; the accessors below share fields exactly as the union does. -/

structure tmb_request_pdu where
  function_code : Nat
  /-- first `uint16_t` of every union variant
      (`start_address` of the read/write-multiple variants,
       `address` of the write-single variants) -/
  field16_0 : Nat
  /-- second `uint16_t` of every union variant
      (`quantity` of the read/write-multiple variants,
       `value` of the write-single variants) -/
  field16_1 : Nat
  /-- `byte_count` of the write-multiple variants -/
  byte_count : Nat
  /-- payload pointed to by `values` of the write-multiple variants
      (bytes for coils, 16-bit words for registers) -/
  values : List Nat
deriving Repr, DecidableEq

def tmb_request_pdu.read_coils_start_address (r : tmb_request_pdu) : Nat := r.field16_0
def tmb_request_pdu.read_coils_quantity (r : tmb_request_pdu) : Nat := r.field16_1
def tmb_request_pdu.read_discrete_inputs_start_address (r : tmb_request_pdu) : Nat := r.field16_0
def tmb_request_pdu.read_discrete_inputs_quantity (r : tmb_request_pdu) : Nat := r.field16_1
def tmb_request_pdu.read_holding_registers_start_address (r : tmb_request_pdu) : Nat := r.field16_0
def tmb_request_pdu.read_holding_registers_quantity (r : tmb_request_pdu) : Nat := r.field16_1
def tmb_request_pdu.read_input_registers_start_address (r : tmb_request_pdu) : Nat := r.field16_0
def tmb_request_pdu.read_input_registers_quantity (r : tmb_request_pdu) : Nat := r.field16_1
def tmb_request_pdu.write_single_coil_address (r : tmb_request_pdu) : Nat := r.field16_0
def tmb_request_pdu.write_single_coil_value (r : tmb_request_pdu) : Nat := r.field16_1
def tmb_request_pdu.write_single_register_address (r : tmb_request_pdu) : Nat := r.field16_0
def tmb_request_pdu.write_single_register_value (r : tmb_request_pdu) : Nat := r.field16_1
def tmb_request_pdu.write_multiple_coils_start_address (r : tmb_request_pdu) : Nat := r.field16_0
def tmb_request_pdu.write_multiple_coils_quantity (r : tmb_request_pdu) : Nat := r.field16_1
def tmb_request_pdu.write_multiple_coils_byte_count (r : tmb_request_pdu) : Nat := r.byte_count
def tmb_request_pdu.write_multiple_coils_values (r : tmb_request_pdu) : List Nat := r.values
def tmb_request_pdu.write_multiple_registers_start_address (r : tmb_request_pdu) : Nat := r.field16_0
def tmb_request_pdu.write_multiple_registers_quantity (r : tmb_request_pdu) : Nat := r.field16_1
def tmb_request_pdu.write_multiple_registers_byte_count (r : tmb_request_pdu) : Nat := r.byte_count
def tmb_request_pdu.write_multiple_registers_values (r : tmb_request_pdu) : List Nat := r.values

/-! ## Request validator (`tmb_request_validate`, tinymodbus.h:1018) -/

/-- `tmb_request_validate`.  Direct translation of the `switch` in the
source, including its two departures from the Modbus ranges:
the WriteMultipleCoils arm demands
`byte_count == quantity / 8 + (quantity % 8 == 0)` (the C bool converts to
1 when the remainder IS zero), and the WriteMultipleRegisters arm bounds
the quantity by `TMB_WRITE_MULTIPLE_COILS_MAX_QUANTITY` (1968).
The `NULL` request argument is modelled with `Option`. -/
def tmb_request_validate (request : Option tmb_request_pdu) : Nat :=
  match request with
  | none => TMB_E_INVALID_ARGUMENTS
  | some r =>
    if r.function_code = TMB_FUNCTION_READ_COILS then
      if TMB_READ_COIL_MIN_QUANTITY ≤ r.read_coils_quantity ∧
          r.read_coils_quantity ≤ TMB_READ_COIL_MAX_QUANTITY then
        TMB_SUCCESS
      else TMB_E_ILLEGAL_DATA_VALUE
    else if r.function_code = TMB_FUNCTION_READ_DISCRETE_INPUTS then
      if TMB_READ_DISCRETE_INPUT_MIN_QUANTITY ≤ r.read_discrete_inputs_quantity ∧
          r.read_discrete_inputs_quantity ≤ TMB_READ_DISCRETE_INPUT_MAX_QUANTITY then
        TMB_SUCCESS
      else TMB_E_ILLEGAL_DATA_VALUE
    else if r.function_code = TMB_FUNCTION_READ_HOLDING_REGISTERS then
      if TMB_READ_HOLDING_REGISTER_MIN_QUANTITY ≤ r.read_holding_registers_quantity ∧
          r.read_holding_registers_quantity ≤ TMB_READ_HOLDING_REGISTER_MAX_QUANTITY then
        TMB_SUCCESS
      else TMB_E_ILLEGAL_DATA_VALUE
    else if r.function_code = TMB_FUNCTION_READ_INPUT_REGISTERS then
      -- the source mixes the variants here; by union overlap both name the same field
      if TMB_READ_INPUT_REGISTER_MIN_QUANTITY ≤ r.read_input_registers_quantity ∧
          r.read_holding_registers_quantity ≤ TMB_READ_HOLDING_REGISTER_MAX_QUANTITY then
        TMB_SUCCESS
      else TMB_E_ILLEGAL_DATA_VALUE
    else if r.function_code = TMB_FUNCTION_WRITE_SINGLE_COIL then
      if r.write_single_coil_value = TMB_WRITE_SINGLE_COIL_TRUE_VALUE ∨
          r.write_single_coil_value = TMB_WRITE_SINGLE_COIL_FALSE_VALUE then
        TMB_SUCCESS
      else TMB_E_ILLEGAL_DATA_VALUE
    else if r.function_code = TMB_FUNCTION_WRITE_SINGLE_REGISTER then
      TMB_SUCCESS
    else if r.function_code = TMB_FUNCTION_WRITE_MULTIPLE_COILS then
      if TMB_WRITE_MULTIPLE_COILS_MIN_QUANTITY ≤ r.write_multiple_coils_quantity ∧
          r.write_multiple_coils_quantity ≤ TMB_WRITE_MULTIPLE_COILS_MAX_QUANTITY then
        if r.write_multiple_coils_byte_count =
            r.write_multiple_coils_quantity / 8 +
              (if r.write_multiple_coils_quantity % 8 = 0 then 1 else 0) then
          TMB_SUCCESS
        else TMB_E_ILLEGAL_DATA_VALUE
      else TMB_E_ILLEGAL_DATA_VALUE
    else if r.function_code = TMB_FUNCTION_WRITE_MULTIPLE_REGISTERS then
      if TMB_WRITE_MULTIPLE_REGISTERS_MIN_QUANTITY ≤ r.write_multiple_registers_quantity ∧
          r.write_multiple_registers_quantity ≤ TMB_WRITE_MULTIPLE_COILS_MAX_QUANTITY then
        if r.write_multiple_registers_byte_count = r.write_multiple_registers_quantity * 2 then
          TMB_SUCCESS
        else TMB_E_ILLEGAL_DATA_VALUE
      else TMB_E_ILLEGAL_DATA_VALUE
    else TMB_E_ILLEGAL_FUNCTION

/-- The validator the claim describes, written from the wording of the
spec's §4.4 range table (1 ≤ q ≤ 2000 for coil/discrete reads,
1 ≤ q ≤ 125 for register reads, coil value in \x7b0x0000, 0xFF00\x7d,
`byte_count = ⌈quantity/8⌉` for WriteMultipleCoils with 1 ≤ q ≤ 1968,
`byte_count = 2·quantity` for WriteMultipleRegisters with 1 ≤ q ≤ 123,
other codes FailIllegalFunction, violations FailIllegalDataValue). -/
def spec_request_validate (r : tmb_request_pdu) : Nat :=
  if r.function_code = 1 ∨ r.function_code = 2 then
    if 1 ≤ r.field16_1 ∧ r.field16_1 ≤ 2000 then TMB_SUCCESS else TMB_E_ILLEGAL_DATA_VALUE
  else if r.function_code = 3 ∨ r.function_code = 4 then
    if 1 ≤ r.field16_1 ∧ r.field16_1 ≤ 125 then TMB_SUCCESS else TMB_E_ILLEGAL_DATA_VALUE
  else if r.function_code = 5 then
    if r.field16_1 = 0x0000 ∨ r.field16_1 = 0xFF00 then TMB_SUCCESS else TMB_E_ILLEGAL_DATA_VALUE
  else if r.function_code = 6 then
    TMB_SUCCESS
  else if r.function_code = 15 then
    if 1 ≤ r.field16_1 ∧ r.field16_1 ≤ 1968 ∧ r.byte_count = (r.field16_1 + 7) / 8 then
      TMB_SUCCESS
    else TMB_E_ILLEGAL_DATA_VALUE
  else if r.function_code = 16 then
    if 1 ≤ r.field16_1 ∧ r.field16_1 ≤ 123 ∧ r.byte_count = 2 * r.field16_1 then
      TMB_SUCCESS
    else TMB_E_ILLEGAL_DATA_VALUE
  else TMB_E_ILLEGAL_FUNCTION

/-- WriteMultipleCoils request with quantity 8 and byte_count 1
(= ⌈8/8⌉, exactly what the §4.4 table demands). -/
def wmc_q8 : tmb_request_pdu :=
  { function_code := 15, field16_0 := 0, field16_1 := 8, byte_count := 1, values := [0xFF] }

/-- WriteMultipleRegisters request with quantity 124 (above the table's
maximum of 123) and byte_count 248 = 2·124. -/
def wmr_q124 : tmb_request_pdu :=
  { function_code := 16, field16_0 := 0, field16_1 := 124, byte_count := 248,
    values := List.replicate 124 0 }


/-! ## Response size oracle (`tmb_get_response_size`, tinymodbus.h:848) -/

/-- `tmb_get_response_size`.  The C function returns a `size_t`; the
"not implemented" arm returns `TMB_E_ILLEGAL_FUNCTION` (the value 1)
through that same channel. -/
def tmb_get_response_size (function_code first_byte : Nat) : Nat :=
  if TMB_IS_FUNCTION_EXCEPTION_CODE function_code then 2
  else if function_code = TMB_FUNCTION_READ_COILS then 2 + first_byte
  else if function_code = TMB_FUNCTION_READ_DISCRETE_INPUTS then 2 + first_byte
  else if function_code = TMB_FUNCTION_READ_HOLDING_REGISTERS then 2 + first_byte
  else if function_code = TMB_FUNCTION_READ_INPUT_REGISTERS then 2 + first_byte
  else if function_code = TMB_FUNCTION_WRITE_SINGLE_COIL then 5
  else if function_code = TMB_FUNCTION_WRITE_SINGLE_REGISTER then 5
  else if function_code = TMB_FUNCTION_WRITE_MULTIPLE_COILS then 5
  else if function_code = TMB_FUNCTION_WRITE_MULTIPLE_REGISTERS then 5
  else TMB_E_ILLEGAL_FUNCTION

/-- The spec's ResponseSizeOracle table with the exception branch amended
from `fc ≥ 0x80` to `fc > 0x80` (which is what the source's
`TMB_IS_FUNCTION_EXCEPTION_CODE` tests). -/
def spec_response_size_oracle_gt (fc second_byte : Nat) : Nat :=
  if 0x80 < fc then 2
  else if fc = 1 ∨ fc = 2 ∨ fc = 3 ∨ fc = 4 then 2 + second_byte
  else if fc = 5 ∨ fc = 6 ∨ fc = 15 ∨ fc = 16 then 5
  else TMB_E_ILLEGAL_FUNCTION


/-! ## CRC-16/Modbus (`crc16_table` / `tmb_crc16` in example_posix_tcpip.c)

The copy of `tmb_crc16` inside `tinymodbus.h` is a TODO stub returning 0
(modelled separately below as `tmb_crc16_header_stub`); the translation
unit of the example carries the real table-driven implementation, which is
what these definitions embed. -/

def crc16_table : List Nat := [
    0x0000, 0xC0C1, 0xC181, 0x0140, 0xC301, 0x03C0, 0x0280, 0xC241, 0xC601, 0x06C0, 0x0780, 0xC741, 0x0500, 0xC5C1, 0xC481, 0x0440,
    0xCC01, 0x0CC0, 0x0D80, 0xCD41, 0x0F00, 0xCFC1, 0xCE81, 0x0E40, 0x0A00, 0xCAC1, 0xCB81, 0x0B40, 0xC901, 0x09C0, 0x0880, 0xC841,
    0xD801, 0x18C0, 0x1980, 0xD941, 0x1B00, 0xDBC1, 0xDA81, 0x1A40, 0x1E00, 0xDEC1, 0xDF81, 0x1F40, 0xDD01, 0x1DC0, 0x1C80, 0xDC41,
    0x1400, 0xD4C1, 0xD581, 0x1540, 0xD701, 0x17C0, 0x1680, 0xD641, 0xD201, 0x12C0, 0x1380, 0xD341, 0x1100, 0xD1C1, 0xD081, 0x1040,
    0xF001, 0x30C0, 0x3180, 0xF141, 0x3300, 0xF3C1, 0xF281, 0x3240, 0x3600, 0xF6C1, 0xF781, 0x3740, 0xF501, 0x35C0, 0x3480, 0xF441,
    0x3C00, 0xFCC1, 0xFD81, 0x3D40, 0xFF01, 0x3FC0, 0x3E80, 0xFE41, 0xFA01, 0x3AC0, 0x3B80, 0xFB41, 0x3900, 0xF9C1, 0xF881, 0x3840,
    0x2800, 0xE8C1, 0xE981, 0x2940, 0xEB01, 0x2BC0, 0x2A80, 0xEA41, 0xEE01, 0x2EC0, 0x2F80, 0xEF41, 0x2D00, 0xEDC1, 0xEC81, 0x2C40,
    0xE401, 0x24C0, 0x2580, 0xE541, 0x2700, 0xE7C1, 0xE681, 0x2640, 0x2200, 0xE2C1, 0xE381, 0x2340, 0xE101, 0x21C0, 0x2080, 0xE041,
    0xA001, 0x60C0, 0x6180, 0xA141, 0x6300, 0xA3C1, 0xA281, 0x6240, 0x6600, 0xA6C1, 0xA781, 0x6740, 0xA501, 0x65C0, 0x6480, 0xA441,
    0x6C00, 0xACC1, 0xAD81, 0x6D40, 0xAF01, 0x6FC0, 0x6E80, 0xAE41, 0xAA01, 0x6AC0, 0x6B80, 0xAB41, 0x6900, 0xA9C1, 0xA881, 0x6840,
    0x7800, 0xB8C1, 0xB981, 0x7940, 0xBB01, 0x7BC0, 0x7A80, 0xBA41, 0xBE01, 0x7EC0, 0x7F80, 0xBF41, 0x7D00, 0xBDC1, 0xBC81, 0x7C40,
    0xB401, 0x74C0, 0x7580, 0xB541, 0x7700, 0xB7C1, 0xB681, 0x7640, 0x7200, 0xB2C1, 0xB381, 0x7340, 0xB101, 0x71C0, 0x7080, 0xB041,
    0x5000, 0x90C1, 0x9181, 0x5140, 0x9301, 0x53C0, 0x5280, 0x9241, 0x9601, 0x56C0, 0x5780, 0x9741, 0x5500, 0x95C1, 0x9481, 0x5440,
    0x9C01, 0x5CC0, 0x5D80, 0x9D41, 0x5F00, 0x9FC1, 0x9E81, 0x5E40, 0x5A00, 0x9AC1, 0x9B81, 0x5B40, 0x9901, 0x59C0, 0x5880, 0x9841,
    0x8801, 0x48C0, 0x4980, 0x8941, 0x4B00, 0x8BC1, 0x8A81, 0x4A40, 0x4E00, 0x8EC1, 0x8F81, 0x4F40, 0x8D01, 0x4DC0, 0x4C80, 0x8C41,
    0x4400, 0x84C1, 0x8581, 0x4540, 0x8701, 0x47C0, 0x4680, 0x8641, 0x8201, 0x42C0, 0x4380, 0x8341, 0x4100, 0x81C1, 0x8081, 0x4040]

/-- One iteration of the `tmb_crc16` loop:
`uint8_t byte = buffer[i] ^ crc; crc >>= 8; crc ^= crc16_table[byte];`.
The `uint8_t` conversion is the `% 256`. -/
def tmb_crc16_step (crc b : Nat) : Nat :=
  (crc >>> 8) ^^^ crc16_table.getD ((b ^^^ crc) % 256) 0

/-- `tmb_crc16` (example translation unit): table-driven CRC-16/Modbus,
initial value 0xFFFF, no final XOR. -/
def tmb_crc16 (buffer : List Nat) : Nat :=
  buffer.foldl tmb_crc16_step 0xFFFF

/-- The two CRC trailer bytes in the order `tmb_adu_add_uint16_le` emits
them: low byte first, then high byte. -/
def tmb_crc16_le (buffer : List Nat) : List Nat :=
  [tmb_crc16 buffer &&& 0xFF, (tmb_crc16 buffer >>> 8) &&& 0xFF]


/-! ## Modes, encapsulations, handle -/

inductive tmb_mode
  | TMB_MODE_CLIENT
  | TMB_MODE_SERVER
deriving DecidableEq, Repr

inductive tmb_encapsulation
  | TMB_ENCAPSULATION_RTU
  | TMB_ENCAPSULATION_ASCII
  | TMB_ENCAPSULATION_TCPIP
deriving DecidableEq, Repr

open tmb_mode tmb_encapsulation

/-- One entry of the server callback table.  The `tmb_callbacks_t` pointer
is modelled as an opaque identifier: `none` is `NULL`, `some n` a
particular callback object. -/
structure tmb_server_slot where
  address : Nat
  callbacks : Option Nat
deriving Repr, DecidableEq

/-- `tmb_handle_t`.  The scratch buffer is the byte list `buffer` with
`buffer_size` its capacity; the C union of client and server state is kept
as separate fields (no claim exercises cross-mode punning of that union).
The transport pointer is not stored: operations receive the transport
script directly. -/
structure tmb_handle_t where
  is_valid : Bool
  buffer : List Nat
  buffer_size : Nat
  mode : tmb_mode
  encapsulation : tmb_encapsulation
  client_device_address : Nat
  client_last_transaction_identifier : Nat
  server_callbacks : List tmb_server_slot
deriving Repr, DecidableEq

/-- The all-zero handle state that `memset(handle, 0, sizeof *handle)`
produces: mode 0 is client, encapsulation 0 is RTU, `NULL` buffer is `[]`,
all server slots are `(0, NULL)`. -/
def tmb_handle_zero : tmb_handle_t :=
  { is_valid := false, buffer := [], buffer_size := 0, mode := TMB_MODE_CLIENT,
    encapsulation := TMB_ENCAPSULATION_RTU, client_device_address := 0,
    client_last_transaction_identifier := 0,
    server_callbacks := List.replicate TMB_SERVER_MAX_ADDRESSES ⟨0, none⟩ }

/-! ## ADU builder (`tmb_adu_t` and friends) -/

structure tmb_adu_t where
  encapsulation : tmb_encapsulation
  capacity : Nat
  size : Nat
  buffer : List Nat
deriving Repr, DecidableEq

/-- The `TMB_ERROR_CHECK` macro: run the continuation only when the
previous step returned `TMB_SUCCESS`, otherwise propagate its error. -/
def tmb_check {α : Type} (r : Nat × α) (k : α → Nat × α) : Nat × α :=
  if r.1 = TMB_SUCCESS then k r.2 else r

/-- Write `src` into `dst` starting at position `pos` (C `memcpy` /
transport read into `buffer + offset`).  Writes past the end of `dst` are
dropped, as `List.set` drops them. -/
def list_write_at (dst : List Nat) (pos : Nat) : List Nat → List Nat
  | [] => dst
  | b :: rest => list_write_at (dst.set pos b) (pos + 1) rest

/-- `TMB_TO_HEX`: ASCII hex digit of a nibble. -/
def TMB_TO_HEX (i : Nat) : Nat := if i ≤ 9 then 48 + i else 55 + i

def TMB_ADU_ASCII_START_BYTE : List Nat := [58]
def TMB_ADU_ASCII_END_BYTES : List Nat := [13, 10]
def TMB_MODBUS_PROTOCOL_IDENTIFIER : Nat := 0

/-- `tmb_adu_add_uint8`: append one byte (two hex chars for ASCII). -/
def tmb_adu_add_uint8 (adu : tmb_adu_t) (data : Nat) : Nat × tmb_adu_t :=
  let data := data % 256
  match adu.encapsulation with
  | TMB_ENCAPSULATION_RTU | TMB_ENCAPSULATION_TCPIP =>
    if adu.size < adu.capacity then
      (TMB_SUCCESS, { adu with buffer := adu.buffer.set adu.size data, size := adu.size + 1 })
    else (TMB_E_NO_MEMORY, adu)
  | TMB_ENCAPSULATION_ASCII =>
    if adu.size + 1 < adu.capacity then
      let adu := { adu with
        buffer := adu.buffer.set adu.size (TMB_TO_HEX ((data &&& 0xF0) >>> 4)),
        size := adu.size + 1 }
      (TMB_SUCCESS, { adu with
        buffer := adu.buffer.set adu.size (TMB_TO_HEX (data &&& 0x0F)),
        size := adu.size + 1 })
    else (TMB_E_NO_MEMORY, adu)

/-- `tmb_adu_add_uint16` as declared in `tinymodbus.h`.  NOTE: the C
parameter is declared `uint8_t data`, so the 16-bit value is truncated to
its low byte on entry and the emitted high byte `(data >> 8) & 0xFF` is
always 0. -/
def tmb_adu_add_uint16 (adu : tmb_adu_t) (data : Nat) : Nat × tmb_adu_t :=
  let data := data % 256
  tmb_check (tmb_adu_add_uint8 adu ((data >>> 8) &&& 0xFF)) fun adu =>
    tmb_adu_add_uint8 adu (data &&& 0xFF)

/-- `tmb_adu_add_bytes`.  The source wraps the BOOLEAN capacity test in
`TMB_ERROR_CHECK` (not `TMB_ON_FALSE_RETURN`): when there IS room, the
boolean converts to the int 1, which `TMB_ERROR_CHECK` treats as an error
and returns; only when the test is false (no room) does the code fall
through to the copy.  `capacity - size` is `size_t` arithmetic; in all
reachable states `size ≤ capacity`, where truncated `Nat` subtraction
agrees with it. -/
def tmb_adu_add_bytes (adu : tmb_adu_t) (bytes : List Nat) : Nat × tmb_adu_t :=
  if bytes.length ≤ adu.capacity - adu.size then
    (1, adu)
  else
    (TMB_SUCCESS,
     { adu with
        buffer := list_write_at adu.buffer adu.size bytes
        size := adu.size + bytes.length })

/-- `tmb_adu_init`: zero the ADU and write the encapsulation header
(the TCP length field is a placeholder back-patched by finalize). -/
def tmb_adu_init (buffer : List Nat) (buffer_size : Nat) (encapsulation : tmb_encapsulation)
    (transaction_identifier : Nat) (device_address : Nat) : Nat × tmb_adu_t :=
  let adu : tmb_adu_t :=
    { encapsulation := encapsulation, capacity := buffer_size, size := 0, buffer := buffer }
  match encapsulation with
  | TMB_ENCAPSULATION_ASCII =>
    tmb_check (tmb_adu_add_bytes adu TMB_ADU_ASCII_START_BYTE) fun adu =>
      tmb_adu_add_uint8 adu device_address
  | TMB_ENCAPSULATION_RTU =>
    tmb_adu_add_uint8 adu device_address
  | TMB_ENCAPSULATION_TCPIP =>
    tmb_check (tmb_adu_add_uint16 adu transaction_identifier) fun adu =>
    tmb_check (tmb_adu_add_uint16 adu TMB_MODBUS_PROTOCOL_IDENTIFIER) fun adu =>
    tmb_check (tmb_adu_add_uint16 adu 0) fun adu =>
      tmb_adu_add_uint8 adu device_address

/-- `tmb_crc16` as it appears INSIDE `tinymodbus.h`: a TODO stub that
always returns 0 (the real table-driven version lives in the example
translation unit and is `tmb_crc16` above). -/
def tmb_crc16_header_stub (buffer : List Nat) : Nat := 0

/-- `tmb_lrc`: sum of the bytes in `uint8_t` arithmetic, negated. -/
def tmb_lrc (buffer : List Nat) : Nat :=
  (256 - buffer.foldl (fun a b => (a + b % 256) % 256) 0) % 256

/-- `tmb_adu_finalize` (tinymodbus.h:763).  For TCP the code back-patches
bytes 4 and 5 with `uint16_t size = adu->size` — the TOTAL frame size, not
the byte count from `unit_id` on — and computes the high byte as
`(size >> 8) * 0xff` (a `*` where `&` was intended).  For RTU it appends
the (stubbed) CRC via `tmb_adu_add_uint16`. -/
def tmb_adu_finalize (adu : tmb_adu_t) : Nat × tmb_adu_t :=
  match adu.encapsulation with
  | TMB_ENCAPSULATION_TCPIP =>
    let size := adu.size % 65536
    let adu := { adu with
      buffer := adu.buffer.set TMB_ADU_TCPIP_SIZE_OFFSET (((size >>> 8) * 0xff) % 256) }
    (TMB_SUCCESS, { adu with
      buffer := adu.buffer.set (TMB_ADU_TCPIP_SIZE_OFFSET + 1) (size &&& 0xff) })
  | TMB_ENCAPSULATION_RTU =>
    tmb_adu_add_uint16 adu (tmb_crc16_header_stub (adu.buffer.take adu.size))
  | TMB_ENCAPSULATION_ASCII =>
    tmb_check (tmb_adu_add_uint8 adu (tmb_lrc (adu.buffer.take adu.size))) fun adu =>
      tmb_adu_add_bytes adu TMB_ADU_ASCII_END_BYTES

/-- `tmb_adu_serialize_request` (tinymodbus.h:786).  The header's version
does not emit the function code byte; it serializes only the per-variant
fields.  The WriteMultipleCoils arm takes its length from
`write_multiple_registers.byte_count`, the same union storage as
`write_multiple_coils.byte_count`.  Out-of-bounds reads of the C payload
arrays (undefined behaviour) are modelled as reading 0. -/
def tmb_adu_serialize_request (adu : tmb_adu_t) (request : tmb_request_pdu) : Nat × tmb_adu_t :=
  if request.function_code = TMB_FUNCTION_READ_COILS then
    tmb_check (tmb_adu_add_uint16 adu request.read_coils_start_address) fun adu =>
      tmb_adu_add_uint16 adu request.read_coils_quantity
  else if request.function_code = TMB_FUNCTION_READ_DISCRETE_INPUTS then
    tmb_check (tmb_adu_add_uint16 adu request.read_discrete_inputs_start_address) fun adu =>
      tmb_adu_add_uint16 adu request.read_discrete_inputs_quantity
  else if request.function_code = TMB_FUNCTION_READ_HOLDING_REGISTERS then
    tmb_check (tmb_adu_add_uint16 adu request.read_holding_registers_start_address) fun adu =>
      tmb_adu_add_uint16 adu request.read_holding_registers_quantity
  else if request.function_code = TMB_FUNCTION_READ_INPUT_REGISTERS then
    tmb_check (tmb_adu_add_uint16 adu request.read_input_registers_start_address) fun adu =>
      tmb_adu_add_uint16 adu request.read_input_registers_quantity
  else if request.function_code = TMB_FUNCTION_WRITE_SINGLE_COIL then
    tmb_check (tmb_adu_add_uint16 adu request.write_single_coil_address) fun adu =>
      tmb_adu_add_uint16 adu request.write_single_coil_value
  else if request.function_code = TMB_FUNCTION_WRITE_SINGLE_REGISTER then
    tmb_check (tmb_adu_add_uint16 adu request.write_single_register_address) fun adu =>
      tmb_adu_add_uint16 adu request.write_single_register_value
  else if request.function_code = TMB_FUNCTION_WRITE_MULTIPLE_COILS then
    tmb_check (tmb_adu_add_uint16 adu request.write_multiple_coils_start_address) fun adu =>
    tmb_check (tmb_adu_add_uint16 adu request.write_multiple_coils_quantity) fun adu =>
    tmb_check (tmb_adu_add_uint8 adu request.write_multiple_coils_byte_count) fun adu =>
      tmb_adu_add_bytes adu
        ((List.range request.write_multiple_registers_byte_count).map
          (fun i => request.write_multiple_coils_values.getD i 0))
  else if request.function_code = TMB_FUNCTION_WRITE_MULTIPLE_REGISTERS then
    tmb_check (tmb_adu_add_uint16 adu request.write_multiple_registers_start_address) fun adu =>
    tmb_check (tmb_adu_add_uint16 adu request.write_multiple_registers_quantity) fun adu =>
    tmb_check (tmb_adu_add_uint8 adu request.write_multiple_registers_byte_count) fun adu =>
      (List.range request.write_multiple_registers_quantity).foldl
        (fun r i => tmb_check r fun adu =>
          tmb_adu_add_uint16 adu (request.write_multiple_registers_values.getD i 0))
        (TMB_SUCCESS, adu)
  else (TMB_E_ILLEGAL_FUNCTION, adu)

/-! ## Transport model and the send/receive loops -/

/-- `tmb_transport_t` modelled as a script: the return value of the i-th
`write` call, the return value of the i-th `read` call, and the stream of
bytes the peer delivers.  The C return type is `int`, hence `Int`. -/
structure tmb_transport_t where
  write : Nat → Int
  read : Nat → Int
  incoming : List Nat

/-- The transport usage of one engine call: how many write/read calls were
made, the chunk handed to each `write` call together with that call's
return value, and how many bytes of `incoming` were consumed. -/
structure tmb_io_state where
  writeCalls : Nat
  readCalls : Nat
  sent : List (List Nat × Int)
  readConsumed : Nat
deriving Repr, DecidableEq

def tmb_io_initial : tmb_io_state := ⟨0, 0, [], 0⟩

/-- The loop of `tmb_send` (tinymodbus.h:965): pass the un-transmitted
tail of the buffer to `transport->write`; a result ≤ 0 is
`TMB_E_TRANSPORT`, otherwise advance by the bytes accepted.

The C `while` loop runs at most `buffer.length` iterations before either
finishing or hitting an erroring write, because every non-erroring write
advances `transmitted` by at least 1.  `fuel` carries that bound so the
recursion is structural (and therefore kernel-evaluable); `tmb_send`
enters with `fuel = buffer.length`, which makes the `fuel = 0`
still-unfinished branch unreachable (its `TMB_FAILURE` result never
occurs). -/
def tmb_send_loop (t : tmb_transport_t) (buffer : List Nat) :
    Nat → tmb_io_state → Nat → Nat × tmb_io_state
  | 0, st, transmitted =>
    if transmitted < buffer.length then (TMB_FAILURE, st) else (TMB_SUCCESS, st)
  | fuel + 1, st, transmitted =>
    if transmitted < buffer.length then
      let nbytes := t.write st.writeCalls
      let st := { st with
        writeCalls := st.writeCalls + 1
        sent := st.sent ++ [(buffer.drop transmitted, nbytes)] }
      if nbytes ≤ 0 then
        (TMB_E_TRANSPORT, st)
      else
        tmb_send_loop t buffer fuel st (transmitted + nbytes.toNat)
    else
      (TMB_SUCCESS, st)

/-- `tmb_send`: transmit the whole buffer, looping over short writes. -/
def tmb_send (t : tmb_transport_t) (st : tmb_io_state) (buffer : List Nat) :
    Nat × tmb_io_state :=
  tmb_send_loop t buffer buffer.length st 0

/-- The loop of `tmb_receive` (tinymodbus.h:980): request the missing
byte count from `transport->read`; a result ≤ 0 is `TMB_E_TRANSPORT`,
otherwise the transport has deposited that many bytes of the incoming
stream.  The third component collects the bytes deposited into the
destination buffer.  `fuel` bounds the iteration count exactly as in
`tmb_send_loop` (at most `request` iterations; `tmb_receive` enters with
`fuel = request`, making the `fuel = 0` still-unfinished branch
unreachable). -/
def tmb_receive_loop (t : tmb_transport_t) (request : Nat) :
    Nat → tmb_io_state → Nat → List Nat → Nat × tmb_io_state × List Nat
  | 0, st, received, acc =>
    if received < request then (TMB_FAILURE, st, acc) else (TMB_SUCCESS, st, acc)
  | fuel + 1, st, received, acc =>
    if received < request then
      let nbytes := t.read st.readCalls
      let st := { st with readCalls := st.readCalls + 1 }
      if nbytes ≤ 0 then
        (TMB_E_TRANSPORT, st, acc)
      else
        let chunk := (t.incoming.drop st.readConsumed).take nbytes.toNat
        let st := { st with readConsumed := st.readConsumed + nbytes.toNat }
        tmb_receive_loop t request fuel st (received + nbytes.toNat) (acc ++ chunk)
    else
      (TMB_SUCCESS, st, acc)

/-- `tmb_receive`: read exactly `request` bytes, looping over short
reads. -/
def tmb_receive (t : tmb_transport_t) (st : tmb_io_state) (request : Nat) :
    Nat × tmb_io_state × List Nat :=
  tmb_receive_loop t request request st 0 []

/-! ## Initialization (`tmb_init`, tinymodbus.h:997) -/

/-- `tmb_init`.  `NULL` pointer arguments are modelled as flags /
`Option`.  The handle is zeroed by `memset` first, so the argument checks
that fail afterwards still leave a zeroed (invalid) handle behind. -/
def tmb_init (handleNull : Bool) (mode : tmb_mode) (encapsulation : tmb_encapsulation)
    (bufferArg : Option (List Nat)) (buffer_size : Nat)
    (transportNull readNull writeNull : Bool) : Nat × Option tmb_handle_t :=
  if handleNull then (TMB_E_INVALID_ARGUMENTS, none)
  else
    let handle := tmb_handle_zero
    match bufferArg with
    | none => (TMB_E_INVALID_ARGUMENTS, some handle)
    | some buffer =>
      if transportNull then (TMB_E_INVALID_ARGUMENTS, some handle)
      else if readNull then (TMB_E_INVALID_ARGUMENTS, some handle)
      else if writeNull then (TMB_E_INVALID_ARGUMENTS, some handle)
      else if encapsulation = TMB_ENCAPSULATION_ASCII then
        (TMB_E_NOT_IMPLEMENTED, some handle)
      else
        (TMB_SUCCESS,
         some { handle with
                buffer := buffer
                buffer_size := buffer_size
                mode := mode
                encapsulation := encapsulation
                is_valid := true })

/-! ## Response parsing (`tmb_response_parse`, tinymodbus.h:898) -/

/-- `tmb_response_pdu_t`, with the union collapsed to the two plain
fields each variant sets (`field16_0`, `field16_1`); the read variants
store their `byte_count` in `field16_0` and the payload pointer
`&buffer[2]` as the offset 2 in `field16_1`. -/
structure tmb_response_pdu where
  function_code : Nat
  field16_0 : Nat
  field16_1 : Nat
deriving Repr, DecidableEq

def TMB_UINT16 (buffer : List Nat) (i : Nat) : Nat :=
  (buffer.getD i 0 <<< 8) ||| buffer.getD (i + 1) 0

/-- `tmb_response_parse`.  The `TMB_ON_FALSE_RETURN` guards of the source
are inverted relative to their obvious intent: the function bails out with
`TMB_E_INVALID_ARGUMENTS` exactly when the buffer is non-NULL AND holds at
least 2 bytes, and the third guard then demands the function code BE an
exception code.  The single call site always passes a non-NULL buffer, so
the model takes the byte list directly. -/
def tmb_response_parse (buffer : List Nat) (buffer_size : Nat) :
    Nat × Option tmb_response_pdu :=
  if ¬ (buffer_size < 2) then (TMB_E_INVALID_ARGUMENTS, none)
  else if ¬ (tmb_get_response_size (buffer.getD 0 0) (buffer.getD 1 0) ≤ buffer_size) then
    (TMB_E_INVALID_ARGUMENTS, none)
  else
    let fc := buffer.getD 0 0
    if ¬ (TMB_IS_FUNCTION_EXCEPTION_CODE fc) then (TMB_E_INVALID_ARGUMENTS, none)
    else if fc = TMB_FUNCTION_READ_COILS ∨ fc = TMB_FUNCTION_READ_DISCRETE_INPUTS ∨
        fc = TMB_FUNCTION_READ_HOLDING_REGISTERS ∨ fc = TMB_FUNCTION_READ_INPUT_REGISTERS then
      (TMB_SUCCESS, some ⟨fc, buffer.getD 1 0, 2⟩)
    else if fc = TMB_FUNCTION_WRITE_SINGLE_COIL ∨ fc = TMB_FUNCTION_WRITE_SINGLE_REGISTER ∨
        fc = TMB_FUNCTION_WRITE_MULTIPLE_COILS ∨ fc = TMB_FUNCTION_WRITE_MULTIPLE_REGISTERS then
      (TMB_SUCCESS, some ⟨fc, TMB_UINT16 buffer 1, TMB_UINT16 buffer 3⟩)
    else (TMB_E_ILLEGAL_FUNCTION, none)

/-! ## Client engine (`tmb_client_send_request`, tinymodbus.h:1087) -/

/-- `tmb_client_send_request`.  The transport is the script `t`; the
returned `tmb_io_state` (starting from `tmb_io_initial`) records every
transport interaction of this call.  The `response` out-parameter is the
final `Option tmb_response_pdu` (`none` when the C code returns before
filling it). -/
def tmb_client_send_request (handle : Option tmb_handle_t)
    (request : Option tmb_request_pdu) (responseNull : Bool) (t : tmb_transport_t) :
    Nat × Option tmb_handle_t × tmb_io_state × Option tmb_response_pdu :=
  match handle with
  | none => (TMB_E_INVALID_ARGUMENTS, none, tmb_io_initial, none)
  | some h =>
    if ¬ h.is_valid then (TMB_E_INVALID_ARGUMENTS, some h, tmb_io_initial, none)
    else match request with
    | none => (TMB_E_INVALID_ARGUMENTS, some h, tmb_io_initial, none)
    | some req =>
      if responseNull then (TMB_E_INVALID_ARGUMENTS, some h, tmb_io_initial, none)
      else
        let e := tmb_request_validate (some req)
        if e ≠ TMB_SUCCESS then (e, some h, tmb_io_initial, none)
        else
          let tid := h.client_last_transaction_identifier
          let h := { h with client_last_transaction_identifier := (tid + 1) % 65536 }
          let r1 := tmb_adu_init h.buffer h.buffer_size h.encapsulation tid
            h.client_device_address
          if r1.1 ≠ TMB_SUCCESS then (r1.1, some h, tmb_io_initial, none)
          else
            let r2 := tmb_adu_serialize_request r1.2 req
            if r2.1 ≠ TMB_SUCCESS then (r2.1, some h, tmb_io_initial, none)
            else
              let r3 := tmb_adu_finalize r2.2
              if r3.1 ≠ TMB_SUCCESS then (r3.1, some h, tmb_io_initial, none)
              else
                let adu := r3.2
                let h := { h with buffer := adu.buffer }
                let r4 := tmb_send t tmb_io_initial (adu.buffer.take adu.size)
                if r4.1 ≠ TMB_SUCCESS then (r4.1, some h, r4.2, none)
                else
                  let r5 := tmb_receive t r4.2 TMB_RESPONSE_LOOKAHEAD_BYTES
                  let h := { h with buffer := list_write_at h.buffer 0 r5.2.2 }
                  if r5.1 ≠ TMB_SUCCESS then (r5.1, some h, r5.2.1, none)
                  else if TMB_IS_FUNCTION_EXCEPTION_CODE (h.buffer.getD 0 0) then
                    let exception_code := h.buffer.getD 1 0
                    if exception_code ≠ 0 then (exception_code, some h, r5.2.1, none)
                    else (TMB_FAILURE, some h, r5.2.1, none)
                  else
                    let response_size :=
                      tmb_get_response_size (h.buffer.getD 0 0) (h.buffer.getD 1 0)
                    let r6 :=
                      if TMB_RESPONSE_LOOKAHEAD_BYTES < response_size then
                        if ¬ (response_size ≤ h.buffer_size) then
                          (TMB_E_NO_MEMORY, h, r5.2.1)
                        else
                          let r := tmb_receive t r5.2.1
                            (response_size - TMB_RESPONSE_LOOKAHEAD_BYTES)
                          (r.1,
                           { h with buffer :=
                              list_write_at h.buffer TMB_RESPONSE_LOOKAHEAD_BYTES r.2.2 },
                           r.2.1)
                      else (TMB_SUCCESS, h, r5.2.1)
                    if r6.1 ≠ TMB_SUCCESS then (r6.1, some r6.2.1, r6.2.2, none)
                    else
                      let h := r6.2.1
                      let r7 := tmb_response_parse h.buffer response_size
                      if r7.1 ≠ TMB_SUCCESS then (r7.1, some h, r6.2.2, none)
                      else (TMB_SUCCESS, some h, r6.2.2, r7.2)

/-- `tmb_client_set_device_address` (tinymodbus.h:1137). -/
def tmb_client_set_device_address (handle : Option tmb_handle_t) (address : Nat) :
    Nat × Option tmb_handle_t :=
  match handle with
  | none => (TMB_E_INVALID_ARGUMENTS, none)
  | some h =>
    if ¬ h.is_valid then (TMB_E_INVALID_ARGUMENTS, some h)
    else if h.mode ≠ TMB_MODE_CLIENT then (TMB_E_INVALID_MODE, some h)
    else (TMB_SUCCESS, some { h with client_device_address := address % 256 })

/-! ## Server (`tmb_server_set_callback` / `tmb_server_run_iteration`) -/

def SIZE_MAX : Nat := 2 ^ 64 - 1

/-- The search loop of `tmb_server_set_callback` (tinymodbus.h:1316).
The assignment to `first_available_idx` is NOT guarded by a
"still unset" test, so after the loop the variable holds the index of the
LAST slot whose callback pointer was `NULL` (the comment in the source
says "record first existing entry"). -/
def tmb_server_set_callback_go (slots : List tmb_server_slot) (address : Nat)
    (callbacks : Option Nat) :
    Nat → Nat → Nat → Nat × List tmb_server_slot
  | 0, _, first_available_idx =>
    if first_available_idx < TMB_SERVER_MAX_ADDRESSES then
      (TMB_SUCCESS, slots.set first_available_idx ⟨address % 65536, callbacks⟩)
    else
      (TMB_E_NO_MEMORY, slots)
  | remaining + 1, i, first_available_idx =>
    let slot := slots.getD i ⟨0, none⟩
    if slot.address = address then
      (TMB_SUCCESS, slots.set i { slot with callbacks := callbacks })
    else
      tmb_server_set_callback_go slots address callbacks remaining (i + 1)
        (if slot.callbacks = none then i else first_available_idx)

/-- `tmb_server_set_callback` (tinymodbus.h:1310). -/
def tmb_server_set_callback (handle : Option tmb_handle_t) (address : Nat)
    (callbacks : Option Nat) : Nat × Option tmb_handle_t :=
  match handle with
  | none => (TMB_E_INVALID_ARGUMENTS, none)
  | some h =>
    if ¬ h.is_valid then (TMB_E_INVALID_ARGUMENTS, some h)
    else if ¬ (address ≤ TMB_ADDRESS_ANY) then (TMB_E_INVALID_ARGUMENTS, some h)
    else if h.mode ≠ TMB_MODE_SERVER then (TMB_E_INVALID_MODE, some h)
    else
      let r := tmb_server_set_callback_go h.server_callbacks address callbacks
        TMB_SERVER_MAX_ADDRESSES 0 SIZE_MAX
      (r.1, some { h with server_callbacks := r.2 })

/-- `tmb_server_run_iteration` (tinymodbus.h:1342): after the handle
check, the body is `return TMB_E_NOT_IMPLEMENTED;` — no transport
interaction at all.  The transport script is taken as an argument only so
the returned `tmb_io_state` can witness that it is untouched. -/
def tmb_server_run_iteration (handle : Option tmb_handle_t) (t : tmb_transport_t) :
    Nat × tmb_io_state :=
  match handle with
  | none => (TMB_E_INVALID_ARGUMENTS, tmb_io_initial)
  | some h =>
    if ¬ h.is_valid then (TMB_E_INVALID_ARGUMENTS, tmb_io_initial)
    else (TMB_E_NOT_IMPLEMENTED, tmb_io_initial)

/-! ## Concrete fixtures used by the claim theorems -/

/-- A valid RTU client handle: 8-byte scratch buffer, device address
0x11, transaction id 0. -/
def client_handle_rtu : tmb_handle_t :=
  { is_valid := true, buffer := List.replicate 8 0, buffer_size := 8,
    mode := TMB_MODE_CLIENT, encapsulation := TMB_ENCAPSULATION_RTU,
    client_device_address := 0x11, client_last_transaction_identifier := 0,
    server_callbacks := List.replicate TMB_SERVER_MAX_ADDRESSES ⟨0, none⟩ }

/-- ReadHoldingRegisters, start 0x6B, quantity 3 (the worked example of
the spec). -/
def req_rhr : tmb_request_pdu := ⟨3, 0x6B, 3, 0, []⟩

/-- ReadHoldingRegisters with quantity 0 (below the §4.4 minimum). -/
def req_rhr_q0 : tmb_request_pdu := ⟨3, 0x6B, 0, 0, []⟩

/-- ReadHoldingRegisters with quantity 126 (above the §4.4 maximum). -/
def req_rhr_q126 : tmb_request_pdu := ⟨3, 0x6B, 126, 0, []⟩

/-- WriteMultipleCoils with quantity 9 and byte_count 1: §4.4 demands
`byte_count = ⌈9/8⌉ = 2`, so the table rejects it, but the source
validator demands `9 / 8 + (9 % 8 == 0) = 1` and accepts it. -/
def req_wmc_q9 : tmb_request_pdu := ⟨15, 0, 9, 1, [0xFF]⟩

/-- WriteMultipleRegisters with quantity 125 and byte_count 250: frames
into a TCP ADU longer than 255 bytes. -/
def req_wmr_q125 : tmb_request_pdu := ⟨16, 0, 125, 250, List.replicate 125 0⟩

/-- Transport whose writes accept 7 bytes per call, whose reads hand over
2 bytes per call, and whose peer sends `b0 :: b1 :: rest`. -/
def exception_reply_transport (b0 b1 : Nat) (rest : List Nat) : tmb_transport_t :=
  ⟨fun _ => 7, fun _ => 2, b0 :: b1 :: rest⟩

/-- The TCP/MBAP ADU built for `req_rhr` (transaction id 1, unit id 1)
and finalized: 6-byte MBAP header + unit id + 4 PDU payload bytes. -/
def tcp_adu_rhr : Nat × tmb_adu_t :=
  tmb_check (tmb_adu_init (List.replicate 280 0) 280 TMB_ENCAPSULATION_TCPIP 1 1) fun adu =>
  tmb_check (tmb_adu_serialize_request adu req_rhr) fun adu =>
  tmb_adu_finalize adu

/-- The TCP/MBAP ADU built for `req_wmr_q125` and finalized: total frame
size 262, which exercises the high byte of the length field. -/
def tcp_adu_wmr : Nat × tmb_adu_t :=
  tmb_check (tmb_adu_init (List.replicate 280 0) 280 TMB_ENCAPSULATION_TCPIP 1 1) fun adu =>
  tmb_check (tmb_adu_serialize_request adu req_wmr_q125) fun adu =>
  tmb_adu_finalize adu

/-- A fresh valid server handle: all ten callback slots zeroed. -/
def server_handle : tmb_handle_t :=
  { tmb_handle_zero with is_valid := true, mode := TMB_MODE_SERVER }

/-- Server handle whose slot 0 is bound to listening address 5. -/
def server_handle_with5 : tmb_handle_t :=
  { server_handle with server_callbacks := ⟨5, some 1⟩ :: List.replicate 9 ⟨0, none⟩ }

/-- Server handle with all ten slots occupied by addresses 1..10. -/
def server_handle_full : tmb_handle_t :=
  { server_handle with
    server_callbacks := (List.range TMB_SERVER_MAX_ADDRESSES).map fun i => ⟨i + 1, some 7⟩ }

/-- The bytes of one `transport->write` call that the transport actually
acknowledged: the first `returned` bytes of the chunk it was handed. -/
def sent_ack (c : List Nat × Int) : List Nat := c.1.take c.2.toNat

/-! ## Theorems -/

set_option maxRecDepth 8192

/-- Claim C1 (code bug): `tmb_request_validate` does not agree with the
§4.4 range table.  The WriteMultipleCoils request with quantity 8 and
byte_count ⌈8/8⌉ = 1 satisfies the table but is rejected with
`TMB_E_ILLEGAL_DATA_VALUE` (the code adds 1 to `quantity / 8` when the
remainder is zero, instead of when it is nonzero), and the
WriteMultipleRegisters request with quantity 124 > 123 violates the table
but is accepted (the code compares against the coils maximum 1968). -/
theorem C1_validator_diverges_from_table :
    tmb_request_validate (some wmc_q8) = TMB_E_ILLEGAL_DATA_VALUE ∧
    spec_request_validate wmc_q8 = TMB_SUCCESS ∧
    tmb_request_validate (some wmr_q124) = TMB_SUCCESS ∧
    spec_request_validate wmr_q124 = TMB_E_ILLEGAL_DATA_VALUE := by
  refine ⟨?_, ?_, ?_, ?_⟩ <;> decide

/-- Claim C2, counterexample: the claim says the oracle returns 2 for every
function code ≥ 0x80, but at exactly 0x80 the source classifies the code as
`FailIllegalFunction` (value 1), not as an exception of size 2. -/
theorem C2_oracle_at_0x80 :
    tmb_get_response_size 0x80 0 = TMB_E_ILLEGAL_FUNCTION ∧
    tmb_get_response_size 0x80 0 ≠ 2 := by
  decide

/-- Claim C2, amended: for every function code and second byte, the oracle
returns 2 for codes STRICTLY above 0x80, `2 + second_byte` for codes
1–4, 5 for codes 5, 6, 15, 16, and `FailIllegalFunction` for everything
else (0x80 itself included). -/
theorem C2_oracle_characterization (fc b : Nat) :
    tmb_get_response_size fc b = spec_response_size_oracle_gt fc b := by
  by_cases h : 0x80 < fc
  · simp [tmb_get_response_size, spec_response_size_oracle_gt,
      TMB_IS_FUNCTION_EXCEPTION_CODE, h]
  · have hle : fc ≤ 0x80 := Nat.le_of_not_lt h
    interval_cases fc <;> rfl

set_option maxRecDepth 8192

/-- Sanity anchor against the worked RTU example of the spec (§8):
the request frame body `11 03 00 6B 00 03` carries CRC `0x8776`,
emitted on the wire as `76 87`. -/
theorem tmb_crc16_spec_vector :
    tmb_crc16 [0x11, 0x03, 0x00, 0x6B, 0x00, 0x03] = 0x8776 := by decide

theorem list_getD_lt (b : Nat) :
    ∀ (l : List Nat) (i : Nat), (∀ x ∈ l, x < b) → 0 < b → l.getD i 0 < b
  | [], i, _, hb => by simp [List.getD]; exact hb
  | x :: xs, 0, h, _ => by
      simpa using h x (by simp)
  | x :: xs, i + 1, h, hb => by
      simpa using list_getD_lt b xs i (fun y hy => h y (by simp [hy])) hb

theorem crc16_table_lt : ∀ x ∈ crc16_table, x < 65536 := by decide

theorem low_xor_self_mod (s : Nat) : ((s % 256) ^^^ s) % 256 = 0 := by
  have h256 : (256 : Nat) = 2 ^ 8 := rfl
  apply Nat.eq_of_testBit_eq
  intro i
  rw [h256]
  simp only [Nat.testBit_mod_two_pow, Nat.testBit_xor, Nat.zero_testBit]
  by_cases h : i < 8 <;> simp [h]

theorem and_255_eq_mod (s : Nat) : s &&& 255 = s % 256 := by
  have h255 : (255 : Nat) = 2 ^ 8 - 1 := rfl
  have h256 : (256 : Nat) = 2 ^ 8 := rfl
  apply Nat.eq_of_testBit_eq
  intro i
  rw [h255, h256]
  simp only [Nat.testBit_and, Nat.testBit_two_pow_sub_one, Nat.testBit_mod_two_pow]
  exact Bool.and_comm _ _

/-- Feeding a CRC state its own low byte drives the state to its high
byte: the table index becomes 0 and `crc16_table[0] = 0`. -/
theorem tmb_crc16_step_low (s : Nat) : tmb_crc16_step s (s % 256) = s >>> 8 := by
  unfold tmb_crc16_step
  rw [low_xor_self_mod]
  have h0 : crc16_table.getD 0 0 = 0 := rfl
  rw [h0, Nat.xor_zero]

theorem tmb_crc16_step_lt (s b : Nat) (hs : s < 65536) : tmb_crc16_step s b < 65536 := by
  unfold tmb_crc16_step
  have h1 : s >>> 8 < 65536 := by
    rw [Nat.shiftRight_eq_div_pow]
    exact Nat.lt_of_le_of_lt (Nat.div_le_self _ _) hs
  have h2 : crc16_table.getD ((b ^^^ s) % 256) 0 < 65536 :=
    list_getD_lt 65536 crc16_table _ crc16_table_lt (by decide)
  have h65536 : (65536 : Nat) = 2 ^ 16 := rfl
  rw [h65536] at h1 h2 ⊢
  exact Nat.xor_lt_two_pow h1 h2

theorem tmb_crc16_loop_lt (B : List Nat) (s : Nat) (hs : s < 65536) :
    B.foldl tmb_crc16_step s < 65536 := by
  induction B generalizing s with
  | nil => simpa using hs
  | cons b bs ih => exact ih _ (tmb_crc16_step_lt _ _ hs)

/-- Claim C6: CRC closure.  For every byte sequence `B`, appending the two
CRC trailer bytes in little-endian order yields a sequence whose
CRC-16/Modbus value is 0. -/
theorem C6_crc_closure (B : List Nat) : tmb_crc16 (B ++ tmb_crc16_le B) = 0 := by
  have hs : tmb_crc16 B < 65536 := tmb_crc16_loop_lt B 0xFFFF (by decide)
  set s := tmb_crc16 B with hsdef
  show (B ++ tmb_crc16_le B).foldl tmb_crc16_step 0xFFFF = 0
  rw [List.foldl_append]
  have hfold : B.foldl tmb_crc16_step 0xFFFF = s := rfl
  rw [hfold]
  show tmb_crc16_step (tmb_crc16_step s (s &&& 255)) ((s >>> 8) &&& 255) = 0
  rw [and_255_eq_mod, tmb_crc16_step_low, and_255_eq_mod, tmb_crc16_step_low]
  rw [Nat.shiftRight_eq_div_pow, Nat.shiftRight_eq_div_pow, Nat.div_div_eq_div_mul]
  exact Nat.div_eq_of_lt hs


/-- Claim C3 (code bug): `tmb_adu_finalize` back-patches bytes 4 and 5 of
a TCP ADU with the TOTAL frame size instead of the MBAP byte count from
`unit_id` onward.  For the framed ReadHoldingRegisters request the frame
is 11 bytes (6 MBAP header + unit id + 4 payload bytes), the MBAP length
field should be `11 - 6 = 5`, but the code writes 11.  For the 262-byte
WriteMultipleRegisters frame the high byte is additionally corrupted by
the `(size >> 8) * 0xff` slip: the code writes `(255, 6)` where the MBAP
length of its own (wrong) value 262 would need `(1, 6)`. -/
theorem C3_mbap_length_backpatch :
    tcp_adu_rhr.1 = TMB_SUCCESS ∧ tcp_adu_rhr.2.size = 11 ∧
    tcp_adu_rhr.2.buffer.getD 4 0 = 0 ∧ tcp_adu_rhr.2.buffer.getD 5 0 = 11 ∧
    tcp_adu_rhr.2.buffer.getD 5 0 ≠ tcp_adu_rhr.2.size - 6 ∧
    tcp_adu_wmr.1 = TMB_SUCCESS ∧ tcp_adu_wmr.2.size = 262 ∧
    tcp_adu_wmr.2.buffer.getD 4 0 = 255 ∧ tcp_adu_wmr.2.buffer.getD 5 0 = 6 ∧
    tcp_adu_wmr.2.buffer.getD 4 0 ≠ (tcp_adu_wmr.2.size - 6) >>> 8 := by
  refine ⟨?_, ?_, ?_, ?_, ?_, ?_, ?_, ?_, ?_, ?_⟩ <;> decide

/-- Claim C5 (code bug): `tmb_server_run_iteration` on a valid server
handle with a registered callback is a stub.  It returns
`TMB_E_NOT_IMPLEMENTED` without any transport interaction instead of
processing one message and returning `TMB_SUCCESS`. -/
theorem C5_server_iteration_stub (t : tmb_transport_t) :
    tmb_server_run_iteration (some server_handle_with5) t
      = (TMB_E_NOT_IMPLEMENTED, tmb_io_initial) ∧
    TMB_E_NOT_IMPLEMENTED ≠ TMB_SUCCESS :=
  ⟨rfl, by decide⟩

/-- Claim C7 (code bug): on a fresh valid server handle (all ten slots
empty) inserting address 5 lands in slot 9 — the LAST empty slot — while
slot 0 stays empty, because the `first_available_idx` assignment is not
guarded by a "still unset" test.  The remaining behaviour the claim lists
does hold: matching addresses are replaced, `NULL` callbacks clear the
matching slot, and a full table with no match yields `TMB_E_NO_MEMORY`. -/
theorem C7_insert_lands_in_last_empty_slot :
    (tmb_server_set_callback (some server_handle) 5 (some 1)).1 = TMB_SUCCESS ∧
    ((tmb_server_set_callback (some server_handle) 5 (some 1)).2.map
        fun h => (h.server_callbacks.getD 9 ⟨0, none⟩, h.server_callbacks.getD 0 ⟨0, none⟩))
      = some (⟨5, some 1⟩, ⟨0, none⟩) ∧
    ((tmb_server_set_callback (some server_handle_with5) 5 (some 2)).2.map
        fun h => h.server_callbacks.getD 0 ⟨0, none⟩) = some ⟨5, some 2⟩ ∧
    ((tmb_server_set_callback (some server_handle_with5) 5 none).2.map
        fun h => h.server_callbacks.getD 0 ⟨0, none⟩) = some ⟨5, none⟩ ∧
    tmb_server_set_callback (some server_handle_full) 20 (some 2)
      = (TMB_E_NO_MEMORY, some server_handle_full) := by
  refine ⟨?_, ?_, ?_, ?_, ?_⟩ <;> decide

/-- Claim C9 (code bug): requests the validator rejects do fail before any
transport interaction — ReadHoldingRegisters with quantity 0 or 126
returns `TMB_E_ILLEGAL_DATA_VALUE` with the transport untouched, for every
transport script — but the claim's universal statement over all §4.4
violations fails: WriteMultipleCoils with quantity 9 and byte_count 1
violates the §4.4 table (⌈9/8⌉ = 2), yet the validator accepts it and the
call proceeds past validation, failing later with error 1 instead of
`TMB_E_ILLEGAL_DATA_VALUE`. -/
theorem C9_validate_before_any_io (t : tmb_transport_t) :
    tmb_client_send_request (some client_handle_rtu) (some req_rhr_q0) false t
      = (TMB_E_ILLEGAL_DATA_VALUE, some client_handle_rtu, tmb_io_initial, none) ∧
    tmb_client_send_request (some client_handle_rtu) (some req_rhr_q126) false t
      = (TMB_E_ILLEGAL_DATA_VALUE, some client_handle_rtu, tmb_io_initial, none) ∧
    spec_request_validate req_wmc_q9 = TMB_E_ILLEGAL_DATA_VALUE ∧
    tmb_request_validate (some req_wmc_q9) = TMB_SUCCESS ∧
    (tmb_client_send_request (some client_handle_rtu) (some req_wmc_q9) false t).1
      = TMB_E_ILLEGAL_FUNCTION ∧
    TMB_E_ILLEGAL_FUNCTION ≠ TMB_E_ILLEGAL_DATA_VALUE :=
  ⟨rfl, rfl, rfl, rfl, rfl, by decide⟩

/-- Claim C10: `tmb_init` with the ASCII encapsulation and otherwise valid
arguments zeroes the handle and returns `TMB_E_NOT_IMPLEMENTED`; the
zeroed handle has `is_valid = false`, and every subsequent client or
server operation on it returns `TMB_E_INVALID_ARGUMENTS` without touching
the transport. -/
theorem C10_ascii_not_implemented (mode : tmb_mode) (buffer : List Nat)
    (buffer_size : Nat) (request : Option tmb_request_pdu) (t : tmb_transport_t)
    (address : Nat) (callbacks : Option Nat) :
    tmb_init false mode TMB_ENCAPSULATION_ASCII (some buffer) buffer_size false false false
      = (TMB_E_NOT_IMPLEMENTED, some tmb_handle_zero) ∧
    tmb_handle_zero.is_valid = false ∧
    tmb_client_send_request (some tmb_handle_zero) request false t
      = (TMB_E_INVALID_ARGUMENTS, some tmb_handle_zero, tmb_io_initial, none) ∧
    tmb_client_set_device_address (some tmb_handle_zero) address
      = (TMB_E_INVALID_ARGUMENTS, some tmb_handle_zero) ∧
    tmb_server_set_callback (some tmb_handle_zero) address callbacks
      = (TMB_E_INVALID_ARGUMENTS, some tmb_handle_zero) ∧
    tmb_server_run_iteration (some tmb_handle_zero) t
      = (TMB_E_INVALID_ARGUMENTS, tmb_io_initial) :=
  ⟨rfl, rfl, rfl, rfl, rfl, rfl⟩

/-- Claim C4, counterexample: on the response PDU bytes `[0x80, 3]` the
claim (exception whenever the high bit is set, i.e. first byte ≥ 0x80)
predicts the error result 3; the engine instead treats 0x80 as a
non-exception code and ends up returning `TMB_E_INVALID_ARGUMENTS` from
the response parser. -/
theorem C4_boundary_0x80 :
    (tmb_client_send_request (some client_handle_rtu) (some req_rhr) false
        (exception_reply_transport 0x80 3 [])).1 = TMB_E_INVALID_ARGUMENTS ∧
    TMB_E_INVALID_ARGUMENTS ≠ 3 := by
  refine ⟨?_, ?_⟩ <;> decide

set_option maxHeartbeats 4000000 in
/-- Claim C4, amended: whenever the first PDU byte of the response is
STRICTLY greater than 0x80 (the source's exception test), the engine
consumes exactly the two lookahead bytes from the transport (one read
call, two bytes) and returns the second lookahead byte as its error
result, or `TMB_FAILURE` when that exception code is 0. -/
theorem C4_exception_reply (b0 b1 : Nat) (rest : List Nat)
    (hb0 : 0x80 < b0) (hb0max : b0 ≤ 0xFF) :
    ((tmb_client_send_request (some client_handle_rtu) (some req_rhr) false
        (exception_reply_transport b0 b1 rest)).1
      = if b1 = 0 then TMB_FAILURE else b1) ∧
    (tmb_client_send_request (some client_handle_rtu) (some req_rhr) false
        (exception_reply_transport b0 b1 rest)).2.2.1.readConsumed = 2 ∧
    (tmb_client_send_request (some client_handle_rtu) (some req_rhr) false
        (exception_reply_transport b0 b1 rest)).2.2.1.readCalls = 1 := by
  rcases b1 with _ | e <;> interval_cases b0 <;> exact ⟨rfl, rfl, rfl⟩

/-- Witness for `C4_exception_reply` at the concrete exception reply
`[0x83, 2]` (ReadHoldingRegisters rejected with IllegalDataAddress). -/
theorem C4_exception_reply_witness :
    ((0x80 : Nat) < 0x83 ∧ (0x83 : Nat) ≤ 0xFF) ∧
    (((tmb_client_send_request (some client_handle_rtu) (some req_rhr) false
        (exception_reply_transport 0x83 2 [])).1
      = if 2 = 0 then TMB_FAILURE else 2) ∧
    (tmb_client_send_request (some client_handle_rtu) (some req_rhr) false
        (exception_reply_transport 0x83 2 [])).2.2.1.readConsumed = 2 ∧
    (tmb_client_send_request (some client_handle_rtu) (some req_rhr) false
        (exception_reply_transport 0x83 2 [])).2.2.1.readCalls = 1) :=
  ⟨⟨by decide, by decide⟩, C4_exception_reply 0x83 2 [] (by decide) (by decide)⟩

/-- Success of the `tmb_send` loop under an always-accepting transport:
everything is transmitted in order.  Generalized over fuel and the loop
state for the induction. -/
theorem tmb_send_loop_pos (t : tmb_transport_t) (buffer : List Nat)
    (hw : ∀ i, 1 ≤ t.write i) :
    ∀ (fuel transmitted : Nat) (st : tmb_io_state),
      buffer.length - transmitted ≤ fuel →
      (tmb_send_loop t buffer fuel st transmitted).1 = TMB_SUCCESS ∧
      ∃ new, (tmb_send_loop t buffer fuel st transmitted).2.sent = st.sent ++ new ∧
        (new.map sent_ack).flatten = buffer.drop transmitted := by
  intro fuel
  induction fuel with
  | zero =>
    intro transmitted st hfuel
    have hge : ¬ transmitted < buffer.length := by omega
    refine ⟨?_, [], ?_, ?_⟩
    · simp [tmb_send_loop, hge]
    · simp [tmb_send_loop, hge]
    · simp [List.drop_eq_nil_of_le (by omega : buffer.length ≤ transmitted)]
  | succ fuel ih =>
    intro transmitted st hfuel
    by_cases h : transmitted < buffer.length
    · have hw0 := hw st.writeCalls
      have hpos : ¬ (t.write st.writeCalls ≤ 0) := by omega
      have h1 : 1 ≤ (t.write st.writeCalls).toNat := by omega
      have hunfold : tmb_send_loop t buffer (fuel + 1) st transmitted
          = tmb_send_loop t buffer fuel
              { st with writeCalls := st.writeCalls + 1, sent := st.sent ++ [(buffer.drop transmitted, t.write st.writeCalls)] }
              (transmitted + (t.write st.writeCalls).toNat) := by
        rw [tmb_send_loop]
        rw [if_pos h]
        simp only [if_neg hpos]
      obtain ⟨hres, new, hsent, hjoin⟩ :=
        ih (transmitted + (t.write st.writeCalls).toNat)
          { st with writeCalls := st.writeCalls + 1, sent := st.sent ++ [(buffer.drop transmitted, t.write st.writeCalls)] }
          (by omega)
      rw [hunfold]
      refine ⟨hres, (buffer.drop transmitted, t.write st.writeCalls) :: new, ?_, ?_⟩
      · rw [hsent]; simp
      · simp only [List.map_cons, List.flatten_cons]
        rw [hjoin]
        show (buffer.drop transmitted).take (t.write st.writeCalls).toNat ++
            buffer.drop (transmitted + (t.write st.writeCalls).toNat) = buffer.drop transmitted
        rw [← List.drop_drop]
        exact List.take_append_drop _ _
    · have hunfold : tmb_send_loop t buffer (fuel + 1) st transmitted = (TMB_SUCCESS, st) := by
        rw [tmb_send_loop]
        rw [if_neg h]
      rw [hunfold]
      refine ⟨rfl, [], by simp, ?_⟩
      simp [List.drop_eq_nil_of_le (by omega : buffer.length ≤ transmitted)]

/-- The `tmb_send` loop stops with `TMB_E_TRANSPORT` at the first write
call that returns ≤ 0, provided transmission is not yet complete. -/
theorem tmb_send_loop_err (t : tmb_transport_t) (buffer : List Nat) :
    ∀ (k fuel transmitted : Nat) (st : tmb_io_state),
      k < fuel →
      (∀ i, i < k → 1 ≤ t.write (st.writeCalls + i)) →
      t.write (st.writeCalls + k) ≤ 0 →
      transmitted + (∑ i ∈ Finset.range k, (t.write (st.writeCalls + i)).toNat)
        < buffer.length →
      (tmb_send_loop t buffer fuel st transmitted).1 = TMB_E_TRANSPORT ∧
      (tmb_send_loop t buffer fuel st transmitted).2.writeCalls = st.writeCalls + k + 1 := by
  intro k
  induction k with
  | zero =>
    intro fuel transmitted st hk hgood hbad hsum
    obtain ⟨f, rfl⟩ : ∃ f, fuel = f + 1 := ⟨fuel - 1, by omega⟩
    have h : transmitted < buffer.length := by simpa using hsum
    have hbad0 : t.write st.writeCalls ≤ 0 := by simpa using hbad
    rw [tmb_send_loop]
    rw [if_pos h]
    simp [if_pos hbad0]
  | succ k ih =>
    intro fuel transmitted st hk hgood hbad hsum
    obtain ⟨f, rfl⟩ : ∃ f, fuel = f + 1 := ⟨fuel - 1, by omega⟩
    have hw0 : 1 ≤ t.write st.writeCalls := by simpa using hgood 0 (by omega)
    have hpos : ¬ (t.write st.writeCalls ≤ 0) := by omega
    have h : transmitted < buffer.length :=
      Nat.lt_of_le_of_lt (Nat.le_add_right _ _) hsum
    rw [tmb_send_loop]
    rw [if_pos h]
    simp only [if_neg hpos]
    have hgoods : ∀ i, i < k → 1 ≤ t.write (st.writeCalls + 1 + i) := by
      intro i hi
      have := hgood (i + 1) (by omega)
      rwa [show st.writeCalls + (i + 1) = st.writeCalls + 1 + i from by omega] at this
    have hbads : t.write (st.writeCalls + 1 + k) ≤ 0 := by
      rwa [show st.writeCalls + 1 + k = st.writeCalls + (k + 1) from by omega]
    have hsums :
        transmitted + (t.write st.writeCalls).toNat
            + (∑ i ∈ Finset.range k, (t.write (st.writeCalls + 1 + i)).toNat)
          < buffer.length := by
      have hrw : (∑ i ∈ Finset.range k, (t.write (st.writeCalls + 1 + i)).toNat)
          = ∑ i ∈ Finset.range k, (t.write (st.writeCalls + (i + 1))).toNat :=
        Finset.sum_congr rfl fun i _ => by
          rw [show st.writeCalls + 1 + i = st.writeCalls + (i + 1) from by omega]
      have hsplit : (∑ i ∈ Finset.range (k + 1), (t.write (st.writeCalls + i)).toNat)
          = (∑ i ∈ Finset.range k, (t.write (st.writeCalls + (i + 1))).toNat)
            + (t.write (st.writeCalls + 0)).toNat := Finset.sum_range_succ' _ _
      rw [hrw]
      simp only [Nat.add_zero] at hsplit
      omega
    have := ih f (transmitted + (t.write st.writeCalls).toNat)
      { st with writeCalls := st.writeCalls + 1, sent := st.sent ++ [(buffer.drop transmitted, t.write st.writeCalls)] }
      (by omega) hgoods hbads hsums
    refine ⟨this.1, ?_⟩
    rw [this.2]
    show st.writeCalls + 1 + k + 1 = st.writeCalls + (k + 1) + 1
    omega

/-- Success of the `tmb_receive` loop under an always-delivering
transport. -/
theorem tmb_receive_loop_pos (t : tmb_transport_t) (request : Nat)
    (hr : ∀ i, 1 ≤ t.read i) :
    ∀ (fuel received : Nat) (st : tmb_io_state) (acc : List Nat),
      request - received ≤ fuel →
      (tmb_receive_loop t request fuel st received acc).1 = TMB_SUCCESS := by
  intro fuel
  induction fuel with
  | zero =>
    intro received st acc hfuel
    have hge : ¬ received < request := by omega
    simp [tmb_receive_loop, hge]
  | succ fuel ih =>
    intro received st acc hfuel
    by_cases h : received < request
    · have hr0 := hr st.readCalls
      have hpos : ¬ (t.read st.readCalls ≤ 0) := by omega
      have hunfold : tmb_receive_loop t request (fuel + 1) st received acc
          = tmb_receive_loop t request fuel
              { st with readCalls := st.readCalls + 1, readConsumed := st.readConsumed + (t.read st.readCalls).toNat }
              (received + (t.read st.readCalls).toNat)
              (acc ++ (t.incoming.drop st.readConsumed).take (t.read st.readCalls).toNat) := by
        rw [tmb_receive_loop]
        rw [if_pos h]
        simp only [if_neg hpos]
      rw [hunfold]
      exact ih _ _ _ (by omega)
    · have hunfold : tmb_receive_loop t request (fuel + 1) st received acc
          = (TMB_SUCCESS, st, acc) := by
        rw [tmb_receive_loop]
        rw [if_neg h]
      rw [hunfold]

/-- The `tmb_receive` loop stops with `TMB_E_TRANSPORT` at the first read
call that returns ≤ 0, provided the requested byte count is not yet
satisfied. -/
theorem tmb_receive_loop_err (t : tmb_transport_t) (request : Nat) :
    ∀ (k fuel received : Nat) (st : tmb_io_state) (acc : List Nat),
      k < fuel →
      (∀ i, i < k → 1 ≤ t.read (st.readCalls + i)) →
      t.read (st.readCalls + k) ≤ 0 →
      received + (∑ i ∈ Finset.range k, (t.read (st.readCalls + i)).toNat) < request →
      (tmb_receive_loop t request fuel st received acc).1 = TMB_E_TRANSPORT ∧
      (tmb_receive_loop t request fuel st received acc).2.1.readCalls = st.readCalls + k + 1 := by
  intro k
  induction k with
  | zero =>
    intro fuel received st acc hk hgood hbad hsum
    obtain ⟨f, rfl⟩ : ∃ f, fuel = f + 1 := ⟨fuel - 1, by omega⟩
    have h : received < request := by simpa using hsum
    have hbad0 : t.read st.readCalls ≤ 0 := by simpa using hbad
    rw [tmb_receive_loop]
    rw [if_pos h]
    simp [if_pos hbad0]
  | succ k ih =>
    intro fuel received st acc hk hgood hbad hsum
    obtain ⟨f, rfl⟩ : ∃ f, fuel = f + 1 := ⟨fuel - 1, by omega⟩
    have hr0 : 1 ≤ t.read st.readCalls := by simpa using hgood 0 (by omega)
    have hpos : ¬ (t.read st.readCalls ≤ 0) := by omega
    have h : received < request := Nat.lt_of_le_of_lt (Nat.le_add_right _ _) hsum
    rw [tmb_receive_loop]
    rw [if_pos h]
    simp only [if_neg hpos]
    have hgoods : ∀ i, i < k → 1 ≤ t.read (st.readCalls + 1 + i) := by
      intro i hi
      have := hgood (i + 1) (by omega)
      rwa [show st.readCalls + (i + 1) = st.readCalls + 1 + i from by omega] at this
    have hbads : t.read (st.readCalls + 1 + k) ≤ 0 := by
      rwa [show st.readCalls + 1 + k = st.readCalls + (k + 1) from by omega]
    have hsums :
        received + (t.read st.readCalls).toNat
            + (∑ i ∈ Finset.range k, (t.read (st.readCalls + 1 + i)).toNat) < request := by
      have hrw : (∑ i ∈ Finset.range k, (t.read (st.readCalls + 1 + i)).toNat)
          = ∑ i ∈ Finset.range k, (t.read (st.readCalls + (i + 1))).toNat :=
        Finset.sum_congr rfl fun i _ => by
          rw [show st.readCalls + 1 + i = st.readCalls + (i + 1) from by omega]
      have hsplit : (∑ i ∈ Finset.range (k + 1), (t.read (st.readCalls + i)).toNat)
          = (∑ i ∈ Finset.range k, (t.read (st.readCalls + (i + 1))).toNat)
            + (t.read (st.readCalls + 0)).toNat := Finset.sum_range_succ' _ _
      rw [hrw]
      simp only [Nat.add_zero] at hsplit
      omega
    have := ih f (received + (t.read st.readCalls).toNat)
      { st with readCalls := st.readCalls + 1, readConsumed := st.readConsumed + (t.read st.readCalls).toNat }
      (acc ++ (t.incoming.drop st.readConsumed).take (t.read st.readCalls).toNat)
      (by omega) hgoods hbads hsums
    refine ⟨this.1, ?_⟩
    rw [this.2]
    show st.readCalls + 1 + k + 1 = st.readCalls + (k + 1) + 1
    omega

/-- Claim C8: `tmb_send` loops over short writes — when every write call
accepts at least one byte it returns `TMB_SUCCESS`, and the acknowledged
chunks, concatenated in call order, are exactly the buffer — and it
returns `TMB_E_TRANSPORT` at the first write call that returns 0 or a
negative value while transmission is incomplete.  `tmb_receive` behaves
symmetrically for reads: it returns `TMB_SUCCESS` when every read call
delivers at least one byte, and `TMB_E_TRANSPORT` at the first read call
that returns 0 or a negative value before the requested count is
satisfied. -/
theorem C8_send_receive_loops :
    (∀ (t : tmb_transport_t) (buffer : List Nat),
      (∀ i, 1 ≤ t.write i) →
      (tmb_send t tmb_io_initial buffer).1 = TMB_SUCCESS ∧
      ((tmb_send t tmb_io_initial buffer).2.sent.map sent_ack).flatten = buffer) ∧
    (∀ (t : tmb_transport_t) (buffer : List Nat) (k : Nat),
      (∀ i, i < k → 1 ≤ t.write i) → t.write k ≤ 0 →
      (∑ i ∈ Finset.range k, (t.write i).toNat) < buffer.length →
      (tmb_send t tmb_io_initial buffer).1 = TMB_E_TRANSPORT ∧
      (tmb_send t tmb_io_initial buffer).2.writeCalls = k + 1) ∧
    (∀ (t : tmb_transport_t) (n : Nat),
      (∀ i, 1 ≤ t.read i) →
      (tmb_receive t tmb_io_initial n).1 = TMB_SUCCESS) ∧
    (∀ (t : tmb_transport_t) (n k : Nat),
      (∀ i, i < k → 1 ≤ t.read i) → t.read k ≤ 0 →
      (∑ i ∈ Finset.range k, (t.read i).toNat) < n →
      (tmb_receive t tmb_io_initial n).1 = TMB_E_TRANSPORT ∧
      (tmb_receive t tmb_io_initial n).2.1.readCalls = k + 1) := by
  refine ⟨?_, ?_, ?_, ?_⟩
  · intro t buffer hw
    obtain ⟨hres, new, hsent, hflat⟩ :=
      tmb_send_loop_pos t buffer hw buffer.length 0 tmb_io_initial (by omega)
    refine ⟨by simpa [tmb_send] using hres, ?_⟩
    show ((tmb_send_loop t buffer buffer.length tmb_io_initial 0).2.sent.map sent_ack).flatten
      = buffer
    rw [hsent]
    simpa [tmb_io_initial] using hflat
  · intro t buffer k hgood hbad hsum
    have hterm : ∀ i, i < k → 1 ≤ (t.write i).toNat := fun i hi => by
      have := hgood i hi; omega
    have hksum : k ≤ ∑ i ∈ Finset.range k, (t.write i).toNat := by
      calc k = ∑ _i ∈ Finset.range k, 1 := by simp
        _ ≤ ∑ i ∈ Finset.range k, (t.write i).toNat :=
          Finset.sum_le_sum fun i hi => hterm i (Finset.mem_range.mp hi)
    have h0 : ∀ i, i < k → 1 ≤ t.write (tmb_io_initial.writeCalls + i) := by
      intro i hi
      simpa [tmb_io_initial] using hgood i hi
    have hb : t.write (tmb_io_initial.writeCalls + k) ≤ 0 := by
      simpa [tmb_io_initial] using hbad
    have hs : 0 + (∑ i ∈ Finset.range k, (t.write (tmb_io_initial.writeCalls + i)).toNat)
        < buffer.length := by
      simpa [tmb_io_initial] using hsum
    have hres := tmb_send_loop_err t buffer k buffer.length 0 tmb_io_initial
      (by omega) h0 hb hs
    exact ⟨by simpa [tmb_send] using hres.1,
      by simpa [tmb_send, tmb_io_initial] using hres.2⟩
  · intro t n hr
    simpa [tmb_receive] using
      tmb_receive_loop_pos t n hr n 0 tmb_io_initial [] (by omega)
  · intro t n k hgood hbad hsum
    have hterm : ∀ i, i < k → 1 ≤ (t.read i).toNat := fun i hi => by
      have := hgood i hi; omega
    have hksum : k ≤ ∑ i ∈ Finset.range k, (t.read i).toNat := by
      calc k = ∑ _i ∈ Finset.range k, 1 := by simp
        _ ≤ ∑ i ∈ Finset.range k, (t.read i).toNat :=
          Finset.sum_le_sum fun i hi => hterm i (Finset.mem_range.mp hi)
    have h0 : ∀ i, i < k → 1 ≤ t.read (tmb_io_initial.readCalls + i) := by
      intro i hi
      simpa [tmb_io_initial] using hgood i hi
    have hb : t.read (tmb_io_initial.readCalls + k) ≤ 0 := by
      simpa [tmb_io_initial] using hbad
    have hs : 0 + (∑ i ∈ Finset.range k, (t.read (tmb_io_initial.readCalls + i)).toNat)
        < n := by
      simpa [tmb_io_initial] using hsum
    have hres := tmb_receive_loop_err t n k n 0 tmb_io_initial []
      (by omega) h0 hb hs
    exact ⟨by simpa [tmb_receive] using hres.1,
      by simpa [tmb_receive, tmb_io_initial] using hres.2⟩

/-- Witness for `C8_send_receive_loops` at concrete transports: a
three-byte buffer sent in two-byte chunks; an immediately failing write; a
three-byte read satisfied one byte at a time; an immediately failing
read. -/
theorem C8_send_receive_loops_witness :
    ((tmb_send ⟨fun _ => 2, fun _ => 1, []⟩ tmb_io_initial [5, 6, 7]).1 = TMB_SUCCESS ∧
     ((tmb_send ⟨fun _ => 2, fun _ => 1, []⟩ tmb_io_initial [5, 6, 7]).2.sent.map
        sent_ack).flatten = [5, 6, 7]) ∧
    ((tmb_send ⟨fun _ => 0, fun _ => 1, []⟩ tmb_io_initial [5]).1 = TMB_E_TRANSPORT ∧
     (tmb_send ⟨fun _ => 0, fun _ => 1, []⟩ tmb_io_initial [5]).2.writeCalls = 0 + 1) ∧
    (tmb_receive ⟨fun _ => 2, fun _ => 1, []⟩ tmb_io_initial 3).1 = TMB_SUCCESS ∧
    ((tmb_receive ⟨fun _ => 1, fun _ => 0, []⟩ tmb_io_initial 2).1 = TMB_E_TRANSPORT ∧
     (tmb_receive ⟨fun _ => 1, fun _ => 0, []⟩ tmb_io_initial 2).2.1.readCalls = 0 + 1) :=
  ⟨C8_send_receive_loops.1 _ _ (fun _ => (by decide : (1 : Int) ≤ 2)),
   C8_send_receive_loops.2.1 _ _ 0 (fun i hi => absurd hi (by omega)) (by decide) (by simp),
   C8_send_receive_loops.2.2.1 _ _ (fun _ => (by decide : (1 : Int) ≤ 1)),
   C8_send_receive_loops.2.2.2 _ _ 0 (fun i hi => absurd hi (by omega)) (by decide) (by simp)⟩

end Tmb
